import Mathlib

/-!
Verification development for the enterprise-architecture-assistant repository.

The serverless handlers (market analysis, vendor-technology analysis,
maturity assessment, 5-year forecast, supplier quadrant) are embedded as
pure Lean functions.  Text is modelled as `List Char`; the JavaScript
regular expressions used by the extractors are simple character-class
patterns and are translated into explicit scanning functions.  JavaScript
numbers that carry fractional score arithmetic are modelled as `ℚ`, and
`Math.random()` is modelled as an explicit stream `ℕ → ℚ` of draws.
-/

namespace EAA

/-- JavaScript whitespace class `\s` (restricted to the ASCII range, which
covers every string this code base manipulates). -/
def jsWs (c : Char) : Bool :=
  c = ' ' || c = '\t' || c = '\n' || c = '\r' || c = '\x0b' || c = '\x0c'

/-- The character class `[A-Za-z\s&\.]` used by every vendor-name pattern in
supplier-quad.js. -/
def vendorClassChar (c : Char) : Bool :=
  c.isAlpha || jsWs c || c = '&' || c = '.'

/-- `String.prototype.trim`: strip JS whitespace from both ends. -/
def trimWS (l : List Char) : List Char :=
  ((l.dropWhile jsWs).reverse.dropWhile jsWs).reverse

/-- Case-insensitive prefix test (models a regex with the `i` flag). -/
def ciPrefix : List Char → List Char → Bool
  | [], _ => true
  | _ :: _, [] => false
  | p :: ps, c :: cs => (p.toLower = c.toLower) && ciPrefix ps cs

/-- Scan for the first case-insensitive occurrence of `pat`; return the rest
of the text after the matched occurrence. -/
def findAfterCI (pat : List Char) : List Char → Option (List Char)
  | [] => if ciPrefix pat [] then some [] else none
  | c :: t =>
    if ciPrefix pat (c :: t) then some ((c :: t).drop pat.length)
    else findAfterCI pat t

/-- Case-sensitive substring containment (`String.prototype.includes`). -/
def strHas (pat : List Char) : List Char → Bool
  | [] => pat.isPrefixOf []
  | c :: t => pat.isPrefixOf (c :: t) || strHas pat t

/-- Content matched by the lazy group in
`\*\*TITLE\*\*([\s\S]*?)(?=\*\*|$)`: everything up to the next `**`
or the end of the text. -/
def takeToStars : List Char → List Char
  | [] => []
  | '*' :: '*' :: _ => []
  | c :: t => c :: takeToStars t

/-! ## supplier-quad.js: vendor extraction -/

/-- Match of `\*\*([A-Za-z\s&\.]+)\*\*` anchored at the head of `l`:
two asterisks, a non-empty run of `vendorClassChar`s, two asterisks.
Returns the captured run.  (The class excludes `*`, so the greedy run is
the match whenever one exists.) -/
def boldNameAt (l : List Char) : Option (List Char) :=
  match l with
  | '*' :: '*' :: r =>
    let run := r.takeWhile vendorClassChar
    if run.isEmpty then none
    else
      match r.drop run.length with
      | '*' :: '*' :: _ => some run
      | _ => none
  | _ => none

/-- First (leftmost) match of `\*\*([A-Za-z\s&\.]+)\*\*` in `l`. -/
def findBoldName : List Char → Option (List Char)
  | [] => none
  | c :: t =>
    match boldNameAt (c :: t) with
    | some run => some run
    | none => findBoldName t

/-- The zero-width lookahead `(?=\d+\.\s+[A-Za-z])` anchored at the head of
`l`: digits, a dot, whitespace, a letter. -/
def numberedAt (l : List Char) : Bool :=
  let ds := l.takeWhile Char.isDigit
  !ds.isEmpty &&
    match l.drop ds.length with
    | '.' :: r2 =>
      let w := r2.takeWhile jsWs
      !w.isEmpty &&
        match r2.drop w.length with
        | c :: _ => c.isAlpha
        | [] => false
    | _ => false

/-- `String.prototype.split` against a zero-width lookahead regex: the text
is cut at every index `i > 0` where the lookahead holds on the suffix
starting at `i` (a zero-width match at index 0 produces no cut). -/
def splitGo (p : List Char → Bool) (acc : List Char) : List Char → List (List Char)
  | [] => [acc.reverse]
  | c :: rest =>
    if p (c :: rest) then acc.reverse :: splitGo p [c] rest
    else splitGo p (c :: acc) rest

/-- `text.split(regex)` for a zero-width lookahead regex `p`. -/
def splitLookahead (p : List Char → Bool) : List Char → List (List Char)
  | [] => [[]]
  | c :: rest => splitGo p [c] rest

/-- Match of `^\d+\.\s+([A-Za-z\s&\.]+)` (anchored): digits, a dot, then
`\s+` followed by the captured class run.  `\s ⊆ [A-Za-z\s&\.]`, so when no
class character follows the greedy whitespace run the engine backtracks one
whitespace character into the capture (possible only when the run has at
least two characters). -/
def numberedName (l : List Char) : Option (List Char) :=
  let ds := l.takeWhile Char.isDigit
  if ds.isEmpty then none
  else
    match l.drop ds.length with
    | '.' :: r2 =>
      let w := r2.takeWhile jsWs
      if w.isEmpty then none
      else
        let k := (r2.drop w.length).takeWhile vendorClassChar
        if !k.isEmpty then some k
        else if 2 ≤ w.length then some (w.drop (w.length - 1))
        else none
    | _ => none

/-- Match of `^([A-Za-z\s&\.]+):` (anchored): a non-empty class run
followed by a colon (`:` is outside the class, so no backtracking). -/
def colonName (l : List Char) : Option (List Char) :=
  let run := l.takeWhile vendorClassChar
  if run.isEmpty then none
  else
    match l.drop run.length with
    | ':' :: _ => some run
    | _ => none

/-- Match of `([A-Za-z\s&\.]+)\s*-` anchored at the head of `l`: a
non-empty class run directly followed by a dash (the run is maximal, the
character after it is outside the class hence not whitespace, so `\s*`
matches empty; shrinking the capture cannot succeed because `-` is outside
the class). -/
def dashNameAt (l : List Char) : Option (List Char) :=
  let run := l.takeWhile vendorClassChar
  if run.isEmpty then none
  else
    match l.drop run.length with
    | '-' :: _ => some run
    | _ => none

/-- First (leftmost) match of `([A-Za-z\s&\.]+)\s*-`. -/
def findDashName : List Char → Option (List Char)
  | [] => none
  | c :: t =>
    match dashNameAt (c :: t) with
    | some run => some run
    | none => findDashName t

/-- supplier-quad.js lines 199-212: try the four vendor-name patterns in
order and return the first capture (every pattern captures a non-empty
group, so the first matching pattern wins). -/
def extractVendorName (s : List Char) : Option (List Char) :=
  match findBoldName s with
  | some cap => some cap
  | none =>
    match numberedName s with
    | some cap => some cap
    | none =>
      match colonName s with
      | some cap => some cap
      | none => findDashName s

/-- supplier-quad.js `extractQuadrantFromText`: keyword search on the
lower-cased section text. -/
def extractQuadrantFromText (text : List Char) : String :=
  let low := text.map Char.toLower
  if strHas "leader".data low then "Leaders"
  else if strHas "challenger".data low then "Challengers"
  else if strHas "visionary".data low then "Visionaries"
  else "Niche Players"

/-- The twelve generated sub-scores (supplier-quad.js `generateVendorScores`,
`detailed` object). -/
structure DetailedScores where
  productCapability : ℚ
  reliabilityAndOps : ℚ
  customerExperience : ℚ
  marketTraction : ℚ
  financialViability : ℚ
  ecosystemPartners : ℚ
  innovationRoadmap : ℚ
  marketUnderstanding : ℚ
  platformStrategy : ℚ
  goToMarket : ℚ
  standardsCompliance : ℚ
  geographicStrategy : ℚ
  deriving Repr, DecidableEq

/-- Result of supplier-quad.js `generateVendorScores`. -/
structure GeneratedScores where
  execute : ℚ
  vision : ℚ
  detailed : DetailedScores
  deriving Repr, DecidableEq

/-- `Math.max(lo, Math.min(hi, x))`. -/
def clampQ (lo hi x : ℚ) : ℚ := max lo (min hi x)

/-- supplier-quad.js `baseScores` lookup (`baseScores[quadrant] ||
{ execute: 60, vision: 60 }`). -/
def baseScores (quadrant : String) : ℚ × ℚ :=
  if quadrant = "Leaders" then (80, 80)
  else if quadrant = "Challengers" then (75, 60)
  else if quadrant = "Visionaries" then (60, 75)
  else if quadrant = "Niche Players" then (55, 55)
  else (60, 60)

/-- supplier-quad.js `generateVendorScores(text, quadrant)`.  The `text`
argument is received but never read by the source function; the single
`Math.random()` draw is the explicit argument `r`, giving
`variance = r * 20 - 10`. -/
def generateVendorScores (text : List Char) (quadrant : String) (r : ℚ) :
    GeneratedScores :=
  let base := baseScores quadrant
  let variance := r * 20 - 10
  { execute := clampQ 30 95 (base.1 + variance)
    vision := clampQ 30 95 (base.2 + variance)
    detailed :=
      { productCapability := clampQ 40 90 (base.1 + variance)
        reliabilityAndOps := clampQ 40 90 (base.1 + variance - 5)
        customerExperience := clampQ 40 90 (base.1 + variance + 5)
        marketTraction := clampQ 40 90 (base.1 + variance)
        financialViability := clampQ 40 90 (base.1 + variance + 10)
        ecosystemPartners := clampQ 40 90 (base.1 + variance - 5)
        innovationRoadmap := clampQ 40 90 (base.2 + variance)
        marketUnderstanding := clampQ 40 90 (base.2 + variance + 5)
        platformStrategy := clampQ 40 90 (base.2 + variance)
        goToMarket := clampQ 40 90 (base.2 + variance - 5)
        standardsCompliance := clampQ 40 90 (base.2 + variance - 10)
        geographicStrategy := clampQ 40 90 (base.2 + variance) } }

/-- A vendor record as pushed by supplier-quad.js `extractVendorScores` /
`createFallbackVendors`. -/
structure Vendor where
  name : String
  quadrant : String
  abilityToExecute : ℚ
  completenessOfVision : ℚ
  scores : DetailedScores
  summary : String
  deriving Repr, DecidableEq

/-- The vendor record pushed for an accepted section (supplier-quad.js
lines 215-228): `name` is the trimmed captured name, the quadrant comes
from the section text, the scores from `generateVendorScores`. -/
def mkSectionVendor (name : List Char) (section' : List Char) (r : ℚ) : Vendor :=
  let quadrant := extractQuadrantFromText section'
  let sc := generateVendorScores section' quadrant r
  { name := String.mk name
    quadrant := quadrant
    abilityToExecute := sc.execute
    completenessOfVision := sc.vision
    scores := sc.detailed
    summary := String.mk (trimWS (section'.take 200)) ++ "..." }

/-- supplier-quad.js lines 193-232: decide whether a split section yields
an accepted vendor, returning the trimmed name.  The section at index 0 is
skipped when shorter than 50 characters; otherwise a name pattern must
capture, and the trimmed name must have length strictly between 2 and 50. -/
def sectionAccept (idx : ℕ) (s : List Char) : Option (List Char) :=
  if idx = 0 && s.length < 50 then none
  else
    match extractVendorName s with
    | none => none
    | some cap =>
      let n := trimWS cap
      if 2 < n.length && n.length < 50 then some n else none

/-- Enumerate the sections and keep the accepted (name, section) pairs. -/
def acceptedSections (sections : List (List Char)) : List (List Char × List Char) :=
  (sections.enum).filterMap fun p =>
    (sectionAccept p.1 p.2).map fun n => (n, p.2)

/-- Map with an index that selects the `Math.random()` draw consumed by
each successive `generateVendorScores` call. -/
def mapRnd {α β : Type} (f : ℕ → α → β) : ℕ → List α → List β
  | _, [] => []
  | i, a :: t => f i a :: mapRnd f (i + 1) t

/-- supplier-quad.js `createFallbackVendors`: a hardcoded vendor list keyed
on whether the analysis text mentions Zero Trust or AIOps. -/
def fallbackVendorSet (text : List Char) : List (String × String) :=
  if strHas "Zero Trust".data text then
    [("Zscaler", "Leaders"), ("Palo Alto Networks", "Leaders"),
     ("CrowdStrike", "Leaders"), ("Microsoft", "Challengers"),
     ("Cisco", "Challengers"), ("Okta", "Visionaries"),
     ("SentinelOne", "Visionaries"), ("Fortinet", "Niche Players")]
  else if strHas "AIOps".data text then
    [("Splunk", "Leaders"), ("Datadog", "Leaders"),
     ("New Relic", "Challengers"), ("Dynatrace", "Leaders"),
     ("AppDynamics", "Challengers"), ("Moogsoft", "Visionaries"),
     ("BigPanda", "Niche Players")]
  else
    [("Vendor A", "Leaders"), ("Vendor B", "Challengers"),
     ("Vendor C", "Visionaries"), ("Vendor D", "Niche Players")]

/-- supplier-quad.js `createFallbackVendors(analysisText)`: map the
hardcoded set through `generateVendorScores('', quadrant)`, one random
draw per vendor. -/
def createFallbackVendors (text : List Char) (rnd : ℕ → ℚ) : List Vendor :=
  mapRnd
    (fun i v =>
      let sc := generateVendorScores [] v.2 (rnd i)
      { name := v.1
        quadrant := v.2
        abilityToExecute := sc.execute
        completenessOfVision := sc.vision
        scores := sc.detailed
        summary := v.1 ++ " analysis based on market positioning and capabilities." })
    0 (fallbackVendorSet text)

/-- supplier-quad.js lines 174-191: the section list.  Approach 1 splits at
bold vendor headers when any `\*\*[A-Za-z\s&\.]+\*\*` match exists,
otherwise approach 2 splits at numbered-list starts. -/
def vendorSections (text : List Char) : List (List Char) :=
  if (findBoldName text).isSome then
    splitLookahead (fun l => (boldNameAt l).isSome) text
  else
    splitLookahead numberedAt text

/-- supplier-quad.js `extractVendorScores(analysisText)`: split into vendor
sections, fall back to the hardcoded vendor set when fewer than two
sections or zero accepted vendors result, otherwise return the accepted
vendors capped at 12.  `acceptedVendors` is the `vendors` array built by
the forEach loop. -/
def acceptedVendors (text : List Char) (rnd : ℕ → ℚ) : List Vendor :=
  mapRnd (fun i p => mkSectionVendor p.1 p.2 (rnd i)) 0
    (acceptedSections (vendorSections text))

/-- supplier-quad.js `extractVendorScores(analysisText)` (continued): the
final result. -/
def extractVendorScores (text : List Char) (rnd : ℕ → ℚ) : List Vendor :=
  if (vendorSections text).length < 2 then createFallbackVendors text rnd
  else if (acceptedVendors text rnd).length = 0 then createFallbackVendors text rnd
  else (acceptedVendors text rnd).take 12

/-! ## The shared section extractor

`extractSection(analysisText, sectionTitle)` appears verbatim in
market-analysis, vendor-technology-analysis, maturity-assessment and
5-year-forecast: a case-insensitive match of
`\*\*TITLE\*\*([\s\S]*?)(?=\*\*|$)`, trimmed, truncated to 300 characters
and suffixed with `...`; if the regex does not match, or the capture is the
empty string (falsy in JavaScript), a fixed placeholder is returned. -/

/-- The placeholder returned when a section cannot be located. -/
def sectionFallback : List Char := "Analysis content not available.".data

/-- The header pattern `**TITLE**`. -/
def headerPat (title : List Char) : List Char :=
  '*' :: '*' :: (title ++ ['*', '*'])

/-- Whether the raw text contains the `**TITLE**` header for `title`
(case-insensitively), i.e. whether the extraction regex matches. -/
def containsHeaderCI (title text : List Char) : Bool :=
  (findAfterCI (headerPat title) text).isSome

/-- The shared `extractSection` function. -/
def extractSection (text title : List Char) : List Char :=
  match findAfterCI (headerPat title) text with
  | none => sectionFallback
  | some rest =>
    let content := takeToStars rest
    if content.isEmpty then sectionFallback
    else trimWS content |>.take 300 |>.append "...".data

/-- market-analysis.js `formatWebSummary` sections: title and extracted
content for the four expected keys. -/
def marketWebSections (analysis : List Char) : List (String × String) :=
  [("Market Overview", String.mk (extractSection analysis "MARKET SIZE AND GROWTH".data)),
   ("Industry Adoption", String.mk (extractSection analysis "INDUSTRY ADOPTION".data)),
   ("Market Drivers", String.mk (extractSection analysis "MARKET DRIVERS".data)),
   ("Challenges", String.mk (extractSection analysis "MARKET CHALLENGES".data))]

/-- The four section keys market-analysis.js expects in the completion. -/
def marketSectionKeys : List (List Char) :=
  ["MARKET SIZE AND GROWTH".data, "INDUSTRY ADOPTION".data,
   "MARKET DRIVERS".data, "MARKET CHALLENGES".data]

/-! ## Handler models

Each Netlify handler is a pure function of
  * the incoming event (HTTP method plus the parse of its JSON body),
  * the environment (the API-key variables),
  * the upstream LLM response (an oracle for the single fetch), and
  * for supplier-quad, the `Math.random()` stream.
It returns the HTTP response together with the number of upstream calls
performed on that path. -/

/-- Parse of the JSON request body (`none` in the wrapping `Event` models a
body on which `JSON.parse` throws). -/
structure Body where
  technology : Option String := none
  vendor : Option String := none
  deriving Repr, DecidableEq

/-- The incoming event. -/
structure Event where
  httpMethod : String
  body : Option Body := none
  deriving Repr, DecidableEq

/-- The environment variables the handlers read. -/
structure Env where
  openaiKey : Option String := none
  claudeKey : Option String := none
  deriving Repr, DecidableEq

/-- The upstream vendor API outcome for the single fetch: HTTP ok-ness and
status, the completion text used on success, and `errorData.error?.message`
on failure. -/
structure Upstream where
  ok : Bool
  status : ℕ
  text : String := ""
  errMessage : Option String := none
  deriving Repr, DecidableEq

/-- JavaScript truthiness of an optional string (absent and the empty
string are falsy). -/
def truthyOpt : Option String → Bool
  | none => false
  | some s => !(s = "")

/-- The response fields the claims inspect. -/
structure HResp where
  status : ℕ
  success : Option Bool := none
  error : Option String := none
  details : Option String := none
  analysis : Option String := none
  sections : List (String × String) := []
  vendors : List Vendor := []
  deriving Repr, DecidableEq

/-- Placeholder for the runtime-supplied `error.message` of a JSON.parse
failure (its concrete text comes from the JavaScript engine and is not
inspected by any claim). -/
def jsonParseMessage : String := "JSON parse error"

/-- netlify/functions/market-analysis.js (file vendor-analysis.js),
`exports.handler`. -/
def marketAnalysisHandler (ev : Event) (env : Env) (up : Upstream) :
    HResp × ℕ :=
  if ev.httpMethod = "OPTIONS" then ({ status := 200 }, 0)
  else if !(ev.httpMethod = "POST") then
    ({ status := 405, error := some "Method not allowed" }, 0)
  else
    match ev.body with
    | none =>
      ({ status := 500, success := some false,
         error := some ("Market analysis failed: " ++ jsonParseMessage) }, 0)
    | some b =>
      if !truthyOpt b.technology then
        ({ status := 400, error := some "Technology parameter required" }, 0)
      else if !truthyOpt env.openaiKey then
        ({ status := 500, error := some "OpenAI API key not configured" }, 0)
      else if !up.ok then
        ({ status := up.status, success := some false,
           error := some ("Market analysis failed: " ++ toString up.status),
           details := up.errMessage }, 1)
      else
        ({ status := 200, success := some true,
           analysis := some up.text,
           sections := marketWebSections up.text.data }, 1)

/-- netlify/functions/vendor-technology-analysis.js, `exports.handler`. -/
def vendorTechHandler (ev : Event) (env : Env) (up : Upstream) :
    HResp × ℕ :=
  if ev.httpMethod = "OPTIONS" then ({ status := 200 }, 0)
  else if !(ev.httpMethod = "POST") then
    ({ status := 405, error := some "Method not allowed" }, 0)
  else
    match ev.body with
    | none =>
      ({ status := 500, success := some false,
         error := some ("Vendor technology analysis failed: " ++ jsonParseMessage) }, 0)
    | some b =>
      if !truthyOpt b.vendor || !truthyOpt b.technology then
        ({ status := 400,
           error := some "Both vendor and technology parameters required" }, 0)
      else if !truthyOpt env.openaiKey then
        ({ status := 500, error := some "OpenAI API key not configured" }, 0)
      else if !up.ok then
        ({ status := up.status, success := some false,
           error := some ("Vendor technology analysis failed: " ++ toString up.status),
           details := up.errMessage }, 1)
      else
        ({ status := 200, success := some true,
           analysis := some up.text }, 1)

/-- netlify/functions/maturity-assessment.js, `exports.handler`. -/
def maturityHandler (ev : Event) (env : Env) (up : Upstream) :
    HResp × ℕ :=
  if ev.httpMethod = "OPTIONS" then ({ status := 200 }, 0)
  else if !(ev.httpMethod = "POST") then
    ({ status := 405, error := some "Method not allowed" }, 0)
  else
    match ev.body with
    | none =>
      ({ status := 500, success := some false,
         error := some ("Maturity assessment failed: " ++ jsonParseMessage) }, 0)
    | some b =>
      if !truthyOpt b.technology then
        ({ status := 400, error := some "Technology parameter required" }, 0)
      else if !truthyOpt env.openaiKey then
        ({ status := 500, error := some "OpenAI API key not configured" }, 0)
      else if !up.ok then
        ({ status := up.status, success := some false,
           error := some ("Maturity assessment failed: " ++ toString up.status),
           details := up.errMessage }, 1)
      else
        ({ status := 200, success := some true,
           analysis := some up.text }, 1)

/-- netlify/functions/5-year-forecast.js, `exports.handler`. -/
def forecastHandler (ev : Event) (env : Env) (up : Upstream) :
    HResp × ℕ :=
  if ev.httpMethod = "OPTIONS" then ({ status := 200 }, 0)
  else if !(ev.httpMethod = "POST") then
    ({ status := 405, error := some "Method not allowed" }, 0)
  else
    match ev.body with
    | none =>
      ({ status := 500, success := some false,
         error := some ("5-year forecast failed: " ++ jsonParseMessage) }, 0)
    | some b =>
      if !truthyOpt b.technology then
        ({ status := 400, error := some "Technology parameter required" }, 0)
      else if !truthyOpt env.openaiKey then
        ({ status := 500, error := some "OpenAI API key not configured" }, 0)
      else if !up.ok then
        ({ status := up.status, success := some false,
           error := some ("5-year forecast failed: " ++ toString up.status),
           details := up.errMessage }, 1)
      else
        ({ status := 200, success := some true,
           analysis := some up.text }, 1)

/-- netlify/functions/supplier-quad.js, `exports.handler`.  There is no
API-key presence check: the fetch is issued with whatever
`process.env.OPENAI_API_KEY` holds; a non-2xx upstream response raises
`new Error('OpenAI API error: ' + status)`, which the catch block turns
into HTTP 500 with a generic error and that message as `details`. -/
def supplierQuadHandler (ev : Event) (env : Env) (up : Upstream)
    (rnd : ℕ → ℚ) : HResp × ℕ :=
  if ev.httpMethod = "OPTIONS" then ({ status := 200 }, 0)
  else if !(ev.httpMethod = "POST") then
    ({ status := 405, error := some "Method not allowed" }, 0)
  else
    match ev.body with
    | none =>
      ({ status := 500, success := some false,
         error := some "Failed to complete supplier quadrant analysis",
         details := some jsonParseMessage }, 0)
    | some b =>
      if !truthyOpt b.technology then
        ({ status := 400, error := some "Technology parameter is required" }, 0)
      else if !up.ok then
        ({ status := 500, success := some false,
           error := some "Failed to complete supplier quadrant analysis",
           details := some ("OpenAI API error: " ++ toString up.status) }, 1)
      else
        ({ status := 200, success := some true,
           analysis := some up.text,
           vendors := extractVendorScores up.text.data rnd }, 1)

/-! ## Prompt builders -/

/-- market-analysis.js lines 48-77: the `marketPrompt` template literal,
written as the concatenation of its fixed skeleton pieces around the
interpolated technology name. -/
def marketPrompt (technology : String) : String :=
  "Analyze the current market landscape for " ++ technology ++
  ".\n\nProvide comprehensive market intelligence covering:\n\n" ++
  "**MARKET SIZE AND GROWTH**" ++
  "\n- Current market valuation and projected 3-year growth rates\n- Key growth drivers and market expansion factors\n- Regional market distribution and growth patterns\n\n" ++
  "**INDUSTRY ADOPTION**" ++
  "\n- Current adoption rates across industry sectors\n- Leading industries driving implementation\n- Enterprise vs. SMB adoption patterns\n\n" ++
  "**MARKET DYNAMICS**" ++
  "\n- Competitive market structure and concentration\n- Pricing trends and cost evolution\n- Investment and funding landscape\n\n" ++
  "**MARKET DRIVERS**" ++
  "\n- Primary business drivers accelerating adoption\n- Technology enablers supporting growth\n- Regulatory and compliance factors\n\n" ++
  "**MARKET CHALLENGES**" ++
  "\n- Key barriers limiting market expansion\n- Technical and operational challenges\n- Market maturity and saturation risks\n\n" ++
  "Keep response under 300 words." ++
  " Focus on quantitative market insights and actionable business intelligence for enterprise decision-making."

/-- supplier-quad.js lines 45-85: the `supplierQuadPrompt` template
literal. -/
def supplierQuadPrompt (technology : String) : String :=
  "Conduct a Magic Quadrant-style vendor positioning analysis for " ++ technology ++
  ".\n\n" ++
  "**ANALYSIS FRAMEWORK:**" ++
  "\nEvaluate 8-12 major vendors using Gartner-style methodology with transparent scoring:\n\n" ++
  "**ABILITY TO EXECUTE (Weighted Scoring)**" ++
  "\n- Product Capability (25%): Feature breadth/depth, performance benchmarks, compliance certifications\n- Reliability & Operations (15%): SLAs/SLOs, uptime track record, incident response, operational tooling\n- Customer Experience (15%): Time-to-value, documentation quality, support responsiveness, user satisfaction\n- Market Traction (20%): Customer count, enterprise logos, deployment scale, revenue growth\n- Financial Viability (10%): Company stability, funding, profitability indicators, market cap\n- Ecosystem Partners (15%): Integration ecosystem, marketplace presence, SI/ISV partnerships\n\n" ++
  "**COMPLETENESS OF VISION (Weighted Scoring)**" ++
  "\n- Innovation Roadmap (25%): R&D investment, feature velocity, credible future plans\n- Market Understanding (20%): Use case fit, vertical expertise, customer reference diversity\n- Platform Strategy (20%): Architecture clarity, extensibility, API-first design, governance\n- Go-to-Market (15%): Channel strategy, pricing transparency, packaging clarity, trial availability\n- Standards Compliance (10%): Open standards support, API portability, interoperability\n- Geographic Strategy (10%): Global presence, localization, data residency compliance\n\n" ++
  "**VENDOR EVALUATION:**" ++
  "\nFor each vendor provide:\n1. Company name and primary products\n2. Scores (0-100) for each sub-factor with brief rationale\n3. Computed axis scores (weighted average)\n4. Quadrant assignment (Leaders/Challengers/Visionaries/Niche Players)\n5. Key strengths and strategic positioning\n\n" ++
  "**QUADRANT LOGIC:**" ++
  "\n- Leaders: High execution + High vision (>70 both axes)\n- Challengers: High execution + Moderate vision (>70 execute, 50-70 vision)\n- Visionaries: Moderate execution + High vision (50-70 execute, >70 vision)  \n- Niche Players: Moderate execution + Moderate vision (<70 both axes)\n\n" ++
  "**OUTPUT FORMAT:**" ++
  "\nStructure as vendor-by-vendor analysis with clear scoring rationale and strategic insights.\n\nProvide actionable vendor selection guidance for enterprise architects.\n\n" ++
  "Keep response comprehensive but under 400 words total."

/-- `pat` occurs as a contiguous substring of `s`. -/
def SubstrOf (pat s : String) : Prop :=
  ∃ pre post : List Char, s.data = pre ++ pat.data ++ post

/-! ## Concrete fixtures used by witnesses and counterexamples -/

/-- A deterministic stand-in for the `Math.random()` stream. -/
def rndZero : ℕ → ℚ := fun _ => 0

/-- A parsed POST event carrying a technology string. -/
def evZT : Event :=
  { httpMethod := "POST", body := some { technology := some "Zero Trust Security" } }

/-- An environment with no API keys configured. -/
def envNoKey : Env := {}

/-- An environment with the OpenAI key configured. -/
def envWithKey : Env := { openaiKey := some "test-key" }

/-- An upstream 401 failure, as the OpenAI API produces for a missing or
wrong key. -/
def upAuthFail : Upstream :=
  { ok := false, status := 401, errMessage := some "Incorrect API key provided" }

/-- An upstream 429 failure carrying a vendor error message. -/
def upRateLimited : Upstream :=
  { ok := false, status := 429, errMessage := some "Rate limit exceeded" }

/-- A digit-free completion text whose single vendor block can contain no
parseable numeric sub-score at all. -/
def cexC1 : String := "Quadrant analysis follows.\n\n**Zscaler** is a leader vendor."

/-- The (single) vendor section `cexC1` splits into. -/
def cexC1section : String := "**Zscaler** is a leader vendor."

/-! ## Helper lemmas -/

lemma mapRnd_length {α β : Type} (f : ℕ → α → β) :
    ∀ (i : ℕ) (l : List α), (mapRnd f i l).length = l.length := by
  intro i l
  induction l generalizing i with
  | nil => rfl
  | cons a t ih => simp [mapRnd, ih]

lemma mem_mapRnd {α β : Type} {f : ℕ → α → β} {v : β} :
    ∀ {i : ℕ} {l : List α}, v ∈ mapRnd f i l → ∃ j a, a ∈ l ∧ v = f j a := by
  intro i l
  induction l generalizing i with
  | nil => intro h; simp [mapRnd] at h
  | cons a t ih =>
    intro h
    rcases h with _ | ⟨_, hmem⟩
    · exact ⟨i, a, List.mem_cons_self a t, rfl⟩
    · obtain ⟨j, b, hb, rfl⟩ := ih hmem
      exact ⟨j, b, List.mem_cons_of_mem a hb, rfl⟩

lemma clampQ_lower (lo hi x : ℚ) : lo ≤ clampQ lo hi x := le_max_left _ _

lemma clampQ_upper (lo hi x : ℚ) (h : lo ≤ hi) : clampQ lo hi x ≤ hi :=
  max_le h (min_le_left _ _)

lemma generateVendorScores_execute_bounds (t : List Char) (q : String) (r : ℚ) :
    30 ≤ (generateVendorScores t q r).execute ∧
      (generateVendorScores t q r).execute ≤ 95 := by
  constructor
  · exact clampQ_lower _ _ _
  · exact clampQ_upper _ _ _ (by norm_num)

lemma generateVendorScores_vision_bounds (t : List Char) (q : String) (r : ℚ) :
    30 ≤ (generateVendorScores t q r).vision ∧
      (generateVendorScores t q r).vision ≤ 95 := by
  constructor
  · exact clampQ_lower _ _ _
  · exact clampQ_upper _ _ _ (by norm_num)

/-- The quadrant keyword search can only produce the four Magic-Quadrant
labels. -/
lemma extractQuadrantFromText_cases (s : List Char) :
    extractQuadrantFromText s = "Leaders" ∨
      extractQuadrantFromText s = "Challengers" ∨
      extractQuadrantFromText s = "Visionaries" ∨
      extractQuadrantFromText s = "Niche Players" := by
  unfold extractQuadrantFromText
  simp only []
  split_ifs <;> simp

/-- The property bundle claim C10 asserts of every returned vendor. -/
def GoodVendor (v : Vendor) : Prop :=
  (v.quadrant = "Leaders" ∨ v.quadrant = "Challengers" ∨
    v.quadrant = "Visionaries" ∨ v.quadrant = "Niche Players") ∧
  30 ≤ v.abilityToExecute ∧ v.abilityToExecute ≤ 95 ∧
  30 ≤ v.completenessOfVision ∧ v.completenessOfVision ≤ 95

lemma fallbackVendorSet_quadrants (text : List Char) :
    ∀ p ∈ fallbackVendorSet text,
      p.2 = "Leaders" ∨ p.2 = "Challengers" ∨
        p.2 = "Visionaries" ∨ p.2 = "Niche Players" := by
  intro p hp
  unfold fallbackVendorSet at hp
  split_ifs at hp <;> simp at hp <;>
    rcases hp with rfl | rfl | rfl | rfl | rfl | rfl | rfl | rfl <;> simp

lemma createFallbackVendors_props (text : List Char) (rnd : ℕ → ℚ) :
    createFallbackVendors text rnd ≠ [] ∧
      (createFallbackVendors text rnd).length ≤ 12 ∧
      ∀ v ∈ createFallbackVendors text rnd, GoodVendor v := by
  refine ⟨?_, ?_, ?_⟩
  · intro h
    have hlen := congrArg List.length h
    rw [createFallbackVendors, mapRnd_length] at hlen
    unfold fallbackVendorSet at hlen
    split_ifs at hlen <;> simp at hlen
  · rw [createFallbackVendors, mapRnd_length]
    unfold fallbackVendorSet
    split_ifs <;> simp
  · intro v hv
    obtain ⟨j, a, ha, rfl⟩ := mem_mapRnd hv
    refine ⟨fallbackVendorSet_quadrants text a ha, ?_, ?_, ?_, ?_⟩
    · exact (generateVendorScores_execute_bounds [] a.2 (rnd j)).1
    · exact (generateVendorScores_execute_bounds [] a.2 (rnd j)).2
    · exact (generateVendorScores_vision_bounds [] a.2 (rnd j)).1
    · exact (generateVendorScores_vision_bounds [] a.2 (rnd j)).2

lemma acceptedVendors_good (text : List Char) (rnd : ℕ → ℚ) :
    ∀ v ∈ acceptedVendors text rnd, GoodVendor v := by
  intro v hv
  obtain ⟨j, a, _, rfl⟩ := mem_mapRnd hv
  refine ⟨extractQuadrantFromText_cases a.2, ?_, ?_, ?_, ?_⟩
  · exact (generateVendorScores_execute_bounds a.2 _ (rnd j)).1
  · exact (generateVendorScores_execute_bounds a.2 _ (rnd j)).2
  · exact (generateVendorScores_vision_bounds a.2 _ (rnd j)).1
  · exact (generateVendorScores_vision_bounds a.2 _ (rnd j)).2

end EAA

namespace EAA

/-! ## Claim theorems -/

/-- C2. For every POST request whose JSON body parses but does not contain
a truthy `technology` field, every analysis handler (market,
vendor-technology, maturity, forecast, quadrant) returns HTTP status 400
and a JSON body containing an `error` field, without calling the upstream
vendor API. -/
theorem claim_C2_missing_technology_400
    (ev : Event) (env : Env) (up : Upstream) (rnd : ℕ → ℚ) (b : Body)
    (hm : ev.httpMethod = "POST") (hb : ev.body = some b)
    (ht : truthyOpt b.technology = false) :
    ((marketAnalysisHandler ev env up).1.status = 400 ∧
      (marketAnalysisHandler ev env up).1.error.isSome = true ∧
      (marketAnalysisHandler ev env up).2 = 0) ∧
    ((vendorTechHandler ev env up).1.status = 400 ∧
      (vendorTechHandler ev env up).1.error.isSome = true ∧
      (vendorTechHandler ev env up).2 = 0) ∧
    ((maturityHandler ev env up).1.status = 400 ∧
      (maturityHandler ev env up).1.error.isSome = true ∧
      (maturityHandler ev env up).2 = 0) ∧
    ((forecastHandler ev env up).1.status = 400 ∧
      (forecastHandler ev env up).1.error.isSome = true ∧
      (forecastHandler ev env up).2 = 0) ∧
    ((supplierQuadHandler ev env up rnd).1.status = 400 ∧
      (supplierQuadHandler ev env up rnd).1.error.isSome = true ∧
      (supplierQuadHandler ev env up rnd).2 = 0) := by
  obtain ⟨m, body⟩ := ev
  simp only at hm hb
  subst hm hb
  simp [marketAnalysisHandler, vendorTechHandler, maturityHandler,
    forecastHandler, supplierQuadHandler, ht]

/-- Witness for C2 at the concrete event POST `{}` (body parses, no
technology field). -/
theorem claim_C2_witness :
    ((marketAnalysisHandler { httpMethod := "POST", body := some {} }
        envNoKey upAuthFail).1.status = 400 ∧
      (marketAnalysisHandler { httpMethod := "POST", body := some {} }
        envNoKey upAuthFail).1.error.isSome = true ∧
      (marketAnalysisHandler { httpMethod := "POST", body := some {} }
        envNoKey upAuthFail).2 = 0) ∧
    ((vendorTechHandler { httpMethod := "POST", body := some {} }
        envNoKey upAuthFail).1.status = 400 ∧
      (vendorTechHandler { httpMethod := "POST", body := some {} }
        envNoKey upAuthFail).1.error.isSome = true ∧
      (vendorTechHandler { httpMethod := "POST", body := some {} }
        envNoKey upAuthFail).2 = 0) ∧
    ((maturityHandler { httpMethod := "POST", body := some {} }
        envNoKey upAuthFail).1.status = 400 ∧
      (maturityHandler { httpMethod := "POST", body := some {} }
        envNoKey upAuthFail).1.error.isSome = true ∧
      (maturityHandler { httpMethod := "POST", body := some {} }
        envNoKey upAuthFail).2 = 0) ∧
    ((forecastHandler { httpMethod := "POST", body := some {} }
        envNoKey upAuthFail).1.status = 400 ∧
      (forecastHandler { httpMethod := "POST", body := some {} }
        envNoKey upAuthFail).1.error.isSome = true ∧
      (forecastHandler { httpMethod := "POST", body := some {} }
        envNoKey upAuthFail).2 = 0) ∧
    ((supplierQuadHandler { httpMethod := "POST", body := some {} }
        envNoKey upAuthFail rndZero).1.status = 400 ∧
      (supplierQuadHandler { httpMethod := "POST", body := some {} }
        envNoKey upAuthFail rndZero).1.error.isSome = true ∧
      (supplierQuadHandler { httpMethod := "POST", body := some {} }
        envNoKey upAuthFail rndZero).2 = 0) :=
  claim_C2_missing_technology_400
    { httpMethod := "POST", body := some {} } envNoKey upAuthFail rndZero {}
    rfl rfl rfl

/-- C3 counterexample.  The supplier-quad handler performs no API-key
presence check: with the key unset it issues the upstream call anyway and,
on the resulting failure, returns HTTP 500 whose `error` and `details`
fields do not contain the substring "not configured" — refuting the claim
that EVERY analysis handler reports "not configured" when its key is
unset. -/
theorem claim_C3_counterexample :
    truthyOpt envNoKey.openaiKey = false ∧
    (supplierQuadHandler evZT envNoKey upAuthFail rndZero).1.status = 500 ∧
    strHas "not configured".data
      (((supplierQuadHandler evZT envNoKey upAuthFail rndZero).1.error.getD "").data)
        = false ∧
    strHas "not configured".data
      (((supplierQuadHandler evZT envNoKey upAuthFail rndZero).1.details.getD "").data)
        = false ∧
    (supplierQuadHandler evZT envNoKey upAuthFail rndZero).2 = 1 := by
  decide

/-- C3 as amended: of the five analysis handlers, the four that check
their key (market, vendor-technology, maturity, forecast) return HTTP 500
with an error message containing "not configured" — without calling the
upstream API — whenever the configured key variable is unset or empty;
the quadrant handler performs no such check. -/
theorem claim_C3_key_not_configured
    (ev : Event) (env : Env) (up : Upstream) (b : Body)
    (hm : ev.httpMethod = "POST") (hb : ev.body = some b)
    (ht : truthyOpt b.technology = true) (hv : truthyOpt b.vendor = true)
    (hk : truthyOpt env.openaiKey = false) :
    ((marketAnalysisHandler ev env up).1.status = 500 ∧
      (∃ msg, (marketAnalysisHandler ev env up).1.error = some msg ∧
        strHas "not configured".data msg.data = true) ∧
      (marketAnalysisHandler ev env up).2 = 0) ∧
    ((vendorTechHandler ev env up).1.status = 500 ∧
      (∃ msg, (vendorTechHandler ev env up).1.error = some msg ∧
        strHas "not configured".data msg.data = true) ∧
      (vendorTechHandler ev env up).2 = 0) ∧
    ((maturityHandler ev env up).1.status = 500 ∧
      (∃ msg, (maturityHandler ev env up).1.error = some msg ∧
        strHas "not configured".data msg.data = true) ∧
      (maturityHandler ev env up).2 = 0) ∧
    ((forecastHandler ev env up).1.status = 500 ∧
      (∃ msg, (forecastHandler ev env up).1.error = some msg ∧
        strHas "not configured".data msg.data = true) ∧
      (forecastHandler ev env up).2 = 0) := by
  obtain ⟨m, body⟩ := ev
  simp only at hm hb
  subst hm hb
  refine ⟨⟨?_, ⟨"OpenAI API key not configured", ?_, by decide⟩, ?_⟩,
    ⟨?_, ⟨"OpenAI API key not configured", ?_, by decide⟩, ?_⟩,
    ⟨?_, ⟨"OpenAI API key not configured", ?_, by decide⟩, ?_⟩,
    ⟨?_, ⟨"OpenAI API key not configured", ?_, by decide⟩, ?_⟩⟩ <;>
  simp [marketAnalysisHandler, vendorTechHandler, maturityHandler,
    forecastHandler, ht, hv, hk]

/-- Witness for the amended C3 at a concrete request with the key unset. -/
theorem claim_C3_witness :
    ((marketAnalysisHandler
        { httpMethod := "POST",
          body := some { technology := some "Zero Trust Security",
                         vendor := some "Zscaler" } }
        envNoKey upAuthFail).1.status = 500 ∧
      (∃ msg, (marketAnalysisHandler
        { httpMethod := "POST",
          body := some { technology := some "Zero Trust Security",
                         vendor := some "Zscaler" } }
        envNoKey upAuthFail).1.error = some msg ∧
        strHas "not configured".data msg.data = true) ∧
      (marketAnalysisHandler
        { httpMethod := "POST",
          body := some { technology := some "Zero Trust Security",
                         vendor := some "Zscaler" } }
        envNoKey upAuthFail).2 = 0) ∧
    ((vendorTechHandler
        { httpMethod := "POST",
          body := some { technology := some "Zero Trust Security",
                         vendor := some "Zscaler" } }
        envNoKey upAuthFail).1.status = 500 ∧
      (∃ msg, (vendorTechHandler
        { httpMethod := "POST",
          body := some { technology := some "Zero Trust Security",
                         vendor := some "Zscaler" } }
        envNoKey upAuthFail).1.error = some msg ∧
        strHas "not configured".data msg.data = true) ∧
      (vendorTechHandler
        { httpMethod := "POST",
          body := some { technology := some "Zero Trust Security",
                         vendor := some "Zscaler" } }
        envNoKey upAuthFail).2 = 0) ∧
    ((maturityHandler
        { httpMethod := "POST",
          body := some { technology := some "Zero Trust Security",
                         vendor := some "Zscaler" } }
        envNoKey upAuthFail).1.status = 500 ∧
      (∃ msg, (maturityHandler
        { httpMethod := "POST",
          body := some { technology := some "Zero Trust Security",
                         vendor := some "Zscaler" } }
        envNoKey upAuthFail).1.error = some msg ∧
        strHas "not configured".data msg.data = true) ∧
      (maturityHandler
        { httpMethod := "POST",
          body := some { technology := some "Zero Trust Security",
                         vendor := some "Zscaler" } }
        envNoKey upAuthFail).2 = 0) ∧
    ((forecastHandler
        { httpMethod := "POST",
          body := some { technology := some "Zero Trust Security",
                         vendor := some "Zscaler" } }
        envNoKey upAuthFail).1.status = 500 ∧
      (∃ msg, (forecastHandler
        { httpMethod := "POST",
          body := some { technology := some "Zero Trust Security",
                         vendor := some "Zscaler" } }
        envNoKey upAuthFail).1.error = some msg ∧
        strHas "not configured".data msg.data = true) ∧
      (forecastHandler
        { httpMethod := "POST",
          body := some { technology := some "Zero Trust Security",
                         vendor := some "Zscaler" } }
        envNoKey upAuthFail).2 = 0) :=
  claim_C3_key_not_configured
    { httpMethod := "POST",
      body := some { technology := some "Zero Trust Security",
                     vendor := some "Zscaler" } }
    envNoKey upAuthFail
    { technology := some "Zero Trust Security", vendor := some "Zscaler" }
    rfl rfl rfl rfl rfl

/-- C4 counterexample.  On an upstream 429 carrying the vendor message
"Rate limit exceeded", the supplier-quad handler responds with HTTP 500
(not the upstream status) and neither response field contains the vendor
message — only the numeric status embedded in a generic string — refuting
the claim that EACH analysis handler passes the upstream status code and
vendor error message through. -/
theorem claim_C4_counterexample :
    upRateLimited.status = 429 ∧
    (supplierQuadHandler evZT envWithKey upRateLimited rndZero).1.status = 500 ∧
    ¬((supplierQuadHandler evZT envWithKey upRateLimited rndZero).1.status =
        upRateLimited.status) ∧
    strHas "Rate limit exceeded".data
      (((supplierQuadHandler evZT envWithKey upRateLimited rndZero).1.error.getD "").data)
        = false ∧
    strHas "Rate limit exceeded".data
      (((supplierQuadHandler evZT envWithKey upRateLimited rndZero).1.details.getD "").data)
        = false ∧
    (supplierQuadHandler evZT envWithKey upRateLimited rndZero).1.details =
      some "OpenAI API error: 429" := by
  decide

/-- C4 as amended: on an upstream non-2xx response, the market,
vendor-technology, maturity and forecast handlers pass the upstream status
code through as the response status and the vendor error message through
as `details`, with exactly one upstream attempt; the supplier-quad handler
also makes exactly one attempt but responds 500, keeping only the numeric
upstream status inside a generic `details` string. -/
theorem claim_C4_upstream_passthrough
    (ev : Event) (env : Env) (up : Upstream) (rnd : ℕ → ℚ) (b : Body)
    (hm : ev.httpMethod = "POST") (hb : ev.body = some b)
    (ht : truthyOpt b.technology = true) (hv : truthyOpt b.vendor = true)
    (hk : truthyOpt env.openaiKey = true) (hu : up.ok = false) :
    ((marketAnalysisHandler ev env up).1.status = up.status ∧
      (marketAnalysisHandler ev env up).1.details = up.errMessage ∧
      (marketAnalysisHandler ev env up).2 = 1) ∧
    ((vendorTechHandler ev env up).1.status = up.status ∧
      (vendorTechHandler ev env up).1.details = up.errMessage ∧
      (vendorTechHandler ev env up).2 = 1) ∧
    ((maturityHandler ev env up).1.status = up.status ∧
      (maturityHandler ev env up).1.details = up.errMessage ∧
      (maturityHandler ev env up).2 = 1) ∧
    ((forecastHandler ev env up).1.status = up.status ∧
      (forecastHandler ev env up).1.details = up.errMessage ∧
      (forecastHandler ev env up).2 = 1) ∧
    ((supplierQuadHandler ev env up rnd).1.status = 500 ∧
      (supplierQuadHandler ev env up rnd).1.details =
        some ("OpenAI API error: " ++ toString up.status) ∧
      (supplierQuadHandler ev env up rnd).2 = 1) := by
  obtain ⟨m, body⟩ := ev
  simp only at hm hb
  subst hm hb
  simp [marketAnalysisHandler, vendorTechHandler, maturityHandler,
    forecastHandler, supplierQuadHandler, ht, hv, hk, hu]

/-- Witness for the amended C4 at a concrete 429 upstream failure. -/
theorem claim_C4_witness :
    ((marketAnalysisHandler
        { httpMethod := "POST",
          body := some { technology := some "Zero Trust Security",
                         vendor := some "Zscaler" } }
        envWithKey upRateLimited).1.status = upRateLimited.status ∧
      (marketAnalysisHandler
        { httpMethod := "POST",
          body := some { technology := some "Zero Trust Security",
                         vendor := some "Zscaler" } }
        envWithKey upRateLimited).1.details = upRateLimited.errMessage ∧
      (marketAnalysisHandler
        { httpMethod := "POST",
          body := some { technology := some "Zero Trust Security",
                         vendor := some "Zscaler" } }
        envWithKey upRateLimited).2 = 1) ∧
    ((vendorTechHandler
        { httpMethod := "POST",
          body := some { technology := some "Zero Trust Security",
                         vendor := some "Zscaler" } }
        envWithKey upRateLimited).1.status = upRateLimited.status ∧
      (vendorTechHandler
        { httpMethod := "POST",
          body := some { technology := some "Zero Trust Security",
                         vendor := some "Zscaler" } }
        envWithKey upRateLimited).1.details = upRateLimited.errMessage ∧
      (vendorTechHandler
        { httpMethod := "POST",
          body := some { technology := some "Zero Trust Security",
                         vendor := some "Zscaler" } }
        envWithKey upRateLimited).2 = 1) ∧
    ((maturityHandler
        { httpMethod := "POST",
          body := some { technology := some "Zero Trust Security",
                         vendor := some "Zscaler" } }
        envWithKey upRateLimited).1.status = upRateLimited.status ∧
      (maturityHandler
        { httpMethod := "POST",
          body := some { technology := some "Zero Trust Security",
                         vendor := some "Zscaler" } }
        envWithKey upRateLimited).1.details = upRateLimited.errMessage ∧
      (maturityHandler
        { httpMethod := "POST",
          body := some { technology := some "Zero Trust Security",
                         vendor := some "Zscaler" } }
        envWithKey upRateLimited).2 = 1) ∧
    ((forecastHandler
        { httpMethod := "POST",
          body := some { technology := some "Zero Trust Security",
                         vendor := some "Zscaler" } }
        envWithKey upRateLimited).1.status = upRateLimited.status ∧
      (forecastHandler
        { httpMethod := "POST",
          body := some { technology := some "Zero Trust Security",
                         vendor := some "Zscaler" } }
        envWithKey upRateLimited).1.details = upRateLimited.errMessage ∧
      (forecastHandler
        { httpMethod := "POST",
          body := some { technology := some "Zero Trust Security",
                         vendor := some "Zscaler" } }
        envWithKey upRateLimited).2 = 1) ∧
    ((supplierQuadHandler
        { httpMethod := "POST",
          body := some { technology := some "Zero Trust Security",
                         vendor := some "Zscaler" } }
        envWithKey upRateLimited rndZero).1.status = 500 ∧
      (supplierQuadHandler
        { httpMethod := "POST",
          body := some { technology := some "Zero Trust Security",
                         vendor := some "Zscaler" } }
        envWithKey upRateLimited rndZero).1.details =
        some ("OpenAI API error: " ++ toString upRateLimited.status) ∧
      (supplierQuadHandler
        { httpMethod := "POST",
          body := some { technology := some "Zero Trust Security",
                         vendor := some "Zscaler" } }
        envWithKey upRateLimited rndZero).2 = 1) :=
  claim_C4_upstream_passthrough
    { httpMethod := "POST",
      body := some { technology := some "Zero Trust Security",
                     vendor := some "Zscaler" } }
    envWithKey upRateLimited rndZero
    { technology := some "Zero Trust Security", vendor := some "Zscaler" }
    rfl rfl rfl rfl rfl rfl

/-- The extractor never produces the empty string: a located section comes
back trimmed, truncated and suffixed with `...`, and a missing or empty
capture comes back as the fixed placeholder. -/
lemma extractSection_ne_nil (text title : List Char) :
    extractSection text title ≠ [] := by
  unfold extractSection
  cases h : findAfterCI (headerPat title) text with
  | none => simp [sectionFallback]
  | some rest =>
    by_cases hc : (takeToStars rest).isEmpty
    · simp [hc, sectionFallback]
    · simp [hc, List.append]

/-- When the header is absent the extractor returns exactly the
placeholder. -/
lemma extractSection_of_no_header (text title : List Char)
    (h : containsHeaderCI title text = false) :
    extractSection text title = sectionFallback := by
  unfold containsHeaderCI at h
  unfold extractSection
  cases hf : findAfterCI (headerPat title) text with
  | none => rfl
  | some rest => rw [hf] at h; simp at h

/-- C5. For every raw completion text that contains all the expected
`**SECTION**` headers of a module's section-title list, the shared section
extractor — which locates content via
`\*\*TITLE\*\*([\s\S]*?)(?=\*\*|$)` — returns a non-empty string for
every corresponding key. -/
theorem claim_C5_sections_nonempty
    (text : List Char) (titles : List (List Char))
    (h : ∀ t ∈ titles, containsHeaderCI t text = true) :
    ∀ t ∈ titles, extractSection text t ≠ [] := by
  intro t _
  exact extractSection_ne_nil text t

/-- Witness for C5: a completion carrying all four market-analysis section
headers yields non-empty content for each key. -/
theorem claim_C5_witness :
    (∀ t ∈ marketSectionKeys, containsHeaderCI t
      ("**MARKET SIZE AND GROWTH**\nbig\n**INDUSTRY ADOPTION**\nwide\n**MARKET DRIVERS**\nmany\n**MARKET CHALLENGES**\nfew").data = true) ∧
    ∀ t ∈ marketSectionKeys,
      extractSection
        ("**MARKET SIZE AND GROWTH**\nbig\n**INDUSTRY ADOPTION**\nwide\n**MARKET DRIVERS**\nmany\n**MARKET CHALLENGES**\nfew").data
        t ≠ [] :=
  ⟨by decide,
   claim_C5_sections_nonempty _ marketSectionKeys (by decide)⟩

/-- C6. For a completion in which none of the expected section headers are
present, the market handler does not surface the extraction failure: it
still answers HTTP 200 with `success:true`, the web summary carries all
four expected keys, and every key is bound to the placeholder content. -/
theorem claim_C6_extraction_failure_silent
    (ev : Event) (env : Env) (up : Upstream) (b : Body)
    (hm : ev.httpMethod = "POST") (hb : ev.body = some b)
    (ht : truthyOpt b.technology = true)
    (hk : truthyOpt env.openaiKey = true) (hu : up.ok = true)
    (hno : ∀ t ∈ marketSectionKeys, containsHeaderCI t up.text.data = false) :
    (marketAnalysisHandler ev env up).1.status = 200 ∧
    (marketAnalysisHandler ev env up).1.success = some true ∧
    (marketAnalysisHandler ev env up).1.error = none ∧
    (marketAnalysisHandler ev env up).1.sections.map Prod.fst =
      ["Market Overview", "Industry Adoption", "Market Drivers", "Challenges"] ∧
    ∀ p ∈ (marketAnalysisHandler ev env up).1.sections,
      p.2 = String.mk sectionFallback := by
  obtain ⟨m, body⟩ := ev
  simp only at hm hb
  subst hm hb
  have h1 := extractSection_of_no_header up.text.data "MARKET SIZE AND GROWTH".data
    (hno _ (by simp [marketSectionKeys]))
  have h2 := extractSection_of_no_header up.text.data "INDUSTRY ADOPTION".data
    (hno _ (by simp [marketSectionKeys]))
  have h3 := extractSection_of_no_header up.text.data "MARKET DRIVERS".data
    (hno _ (by simp [marketSectionKeys]))
  have h4 := extractSection_of_no_header up.text.data "MARKET CHALLENGES".data
    (hno _ (by simp [marketSectionKeys]))
  simp [marketAnalysisHandler, marketWebSections, ht, hk, hu, h1, h2, h3, h4]

/-- Witness for C6 at a concrete header-free completion. -/
theorem claim_C6_witness :
    (marketAnalysisHandler evZT envWithKey
        { ok := true, status := 200, text := "no markdown here at all" }).1.status
      = 200 ∧
    (marketAnalysisHandler evZT envWithKey
        { ok := true, status := 200, text := "no markdown here at all" }).1.success
      = some true ∧
    (marketAnalysisHandler evZT envWithKey
        { ok := true, status := 200, text := "no markdown here at all" }).1.error
      = none ∧
    (marketAnalysisHandler evZT envWithKey
        { ok := true, status := 200, text := "no markdown here at all" }).1.sections.map
        Prod.fst =
      ["Market Overview", "Industry Adoption", "Market Drivers", "Challenges"] ∧
    ∀ p ∈ (marketAnalysisHandler evZT envWithKey
        { ok := true, status := 200, text := "no markdown here at all" }).1.sections,
      p.2 = String.mk sectionFallback :=
  claim_C6_extraction_failure_silent evZT envWithKey
    { ok := true, status := 200, text := "no markdown here at all" }
    { technology := some "Zero Trust Security" }
    rfl rfl rfl rfl rfl (by decide)

/-- C8. POST `{technology: "Zero Trust Security"}` to the market-analysis
handler with a 200 upstream completion containing the expected markdown
headers answers `success:true` with `data.analysis` equal to the upstream
completion text, unmodified, after exactly one upstream call. -/
theorem claim_C8_market_success_passthrough
    (env : Env) (up : Upstream)
    (hk : truthyOpt env.openaiKey = true) (hu : up.ok = true)
    (hh : ∀ t ∈ marketSectionKeys, containsHeaderCI t up.text.data = true) :
    (marketAnalysisHandler evZT env up).1.status = 200 ∧
    (marketAnalysisHandler evZT env up).1.success = some true ∧
    (marketAnalysisHandler evZT env up).1.analysis = some up.text ∧
    (marketAnalysisHandler evZT env up).2 = 1 := by
  simp [marketAnalysisHandler, evZT, hk, hu]
  simp [truthyOpt]

/-- Witness for C8 at a concrete upstream completion carrying all four
headers. -/
theorem claim_C8_witness :
    (marketAnalysisHandler evZT envWithKey
        { ok := true, status := 200,
          text := "**MARKET SIZE AND GROWTH**\nbig\n**INDUSTRY ADOPTION**\nwide\n**MARKET DRIVERS**\nmany\n**MARKET CHALLENGES**\nfew" }).1.status
      = 200 ∧
    (marketAnalysisHandler evZT envWithKey
        { ok := true, status := 200,
          text := "**MARKET SIZE AND GROWTH**\nbig\n**INDUSTRY ADOPTION**\nwide\n**MARKET DRIVERS**\nmany\n**MARKET CHALLENGES**\nfew" }).1.success
      = some true ∧
    (marketAnalysisHandler evZT envWithKey
        { ok := true, status := 200,
          text := "**MARKET SIZE AND GROWTH**\nbig\n**INDUSTRY ADOPTION**\nwide\n**MARKET DRIVERS**\nmany\n**MARKET CHALLENGES**\nfew" }).1.analysis
      = some "**MARKET SIZE AND GROWTH**\nbig\n**INDUSTRY ADOPTION**\nwide\n**MARKET DRIVERS**\nmany\n**MARKET CHALLENGES**\nfew" ∧
    (marketAnalysisHandler evZT envWithKey
        { ok := true, status := 200,
          text := "**MARKET SIZE AND GROWTH**\nbig\n**INDUSTRY ADOPTION**\nwide\n**MARKET DRIVERS**\nmany\n**MARKET CHALLENGES**\nfew" }).2
      = 1 :=
  claim_C8_market_success_passthrough envWithKey
    { ok := true, status := 200,
      text := "**MARKET SIZE AND GROWTH**\nbig\n**INDUSTRY ADOPTION**\nwide\n**MARKET DRIVERS**\nmany\n**MARKET CHALLENGES**\nfew" }
    rfl rfl (by decide)

lemma data_append (a b : String) : (a ++ b).data = a.data ++ b.data :=
  String.data_append a b

lemma substrOf_rfl (pat : String) : SubstrOf pat pat :=
  ⟨[], [], by simp⟩

lemma substrOf_append_right (pat s₂ : String) (s₁ : String)
    (h : SubstrOf pat s₂) : SubstrOf pat (s₁ ++ s₂) := by
  obtain ⟨pre, post, hp⟩ := h
  exact ⟨s₁.data ++ pre, post, by simp [data_append, hp]⟩

lemma substrOf_append_left (pat s₁ : String) (s₂ : String)
    (h : SubstrOf pat s₁) : SubstrOf pat (s₁ ++ s₂) := by
  obtain ⟨pre, post, hp⟩ := h
  exact ⟨pre, post ++ s₂.data, by simp [data_append, hp]⟩

/-- C9. The prompt builders are deterministic functions of their inputs,
and for every technology name the produced prompt contains the fixed
section skeleton and the word-ceiling instruction. -/
theorem claim_C9_prompts_deterministic (t : String) :
    marketPrompt t = marketPrompt t ∧
    supplierQuadPrompt t = supplierQuadPrompt t ∧
    SubstrOf "**MARKET SIZE AND GROWTH**" (marketPrompt t) ∧
    SubstrOf "**INDUSTRY ADOPTION**" (marketPrompt t) ∧
    SubstrOf "**MARKET DYNAMICS**" (marketPrompt t) ∧
    SubstrOf "**MARKET DRIVERS**" (marketPrompt t) ∧
    SubstrOf "**MARKET CHALLENGES**" (marketPrompt t) ∧
    SubstrOf "Keep response under 300 words." (marketPrompt t) ∧
    SubstrOf "**ANALYSIS FRAMEWORK:**" (supplierQuadPrompt t) ∧
    SubstrOf "**QUADRANT LOGIC:**" (supplierQuadPrompt t) ∧
    SubstrOf "**OUTPUT FORMAT:**" (supplierQuadPrompt t) ∧
    SubstrOf "Keep response comprehensive but under 400 words total."
      (supplierQuadPrompt t) := by
  refine ⟨rfl, rfl, ?_, ?_, ?_, ?_, ?_, ?_, ?_, ?_, ?_, ?_⟩ <;>
  · simp only [marketPrompt, supplierQuadPrompt]
    repeat
      first
        | exact substrOf_append_right _ _ _ (substrOf_rfl _)
        | apply substrOf_append_left

/-- C1 counterexample.  `cexC1` contains no digit at all, so at most 0 of
the 12 numeric sub-scores (and neither axis score) can possibly parse from
its vendor block — yet `extractVendorScores` accepts the block and returns
the Zscaler vendor rather than dropping it, refuting the ≥8-of-12
validity rule. -/
theorem claim_C1_counterexample :
    cexC1.data.all (fun c => !c.isDigit) = true ∧
    (extractVendorScores cexC1.data rndZero).map Vendor.name = ["Zscaler"] := by
  decide

/-- C1 as amended: a vendor block is accepted exactly when one of the
name patterns captures a name of trimmed length strictly between 2 and 50;
the sub-scores play no role in acceptance — `generateVendorScores` ignores
its text argument entirely, and on the digit-free `cexC1` the result is
the single Zscaler record whose axis scores and 12 sub-scores are all
generated from the quadrant keyword and the random draw. -/
theorem claim_C1_no_subscore_validity
    (t₁ t₂ : List Char) (q : String) (r : ℚ) (rnd : ℕ → ℚ) :
    generateVendorScores t₁ q r = generateVendorScores t₂ q r ∧
    extractVendorScores cexC1.data rnd =
      [mkSectionVendor "Zscaler".data cexC1section.data (rnd 0)] :=
  ⟨rfl, rfl⟩

/-- C7. When vendor extraction totally fails in the quadrant module —
fewer than two split sections, or zero accepted vendors — the result is
the hardcoded fallback vendor set, whose names are always one of the three
hardcoded lists. -/
theorem claim_C7_fallback_vendors (text : List Char) (rnd : ℕ → ℚ) :
    ((vendorSections text).length < 2 →
      extractVendorScores text rnd = createFallbackVendors text rnd) ∧
    (acceptedSections (vendorSections text) = [] →
      extractVendorScores text rnd = createFallbackVendors text rnd) ∧
    ((createFallbackVendors text rnd).map Vendor.name =
        ["Zscaler", "Palo Alto Networks", "CrowdStrike", "Microsoft",
         "Cisco", "Okta", "SentinelOne", "Fortinet"] ∨
      (createFallbackVendors text rnd).map Vendor.name =
        ["Splunk", "Datadog", "New Relic", "Dynatrace",
         "AppDynamics", "Moogsoft", "BigPanda"] ∨
      (createFallbackVendors text rnd).map Vendor.name =
        ["Vendor A", "Vendor B", "Vendor C", "Vendor D"]) := by
  refine ⟨?_, ?_, ?_⟩
  · intro h
    unfold extractVendorScores
    rw [if_pos h]
  · intro h
    unfold extractVendorScores
    by_cases hlen : (vendorSections text).length < 2
    · rw [if_pos hlen]
    · rw [if_neg hlen, if_pos]
      unfold acceptedVendors
      rw [h]
      rfl
  · unfold createFallbackVendors fallbackVendorSet
    split_ifs with h1 h2
    · left; rfl
    · right; left; rfl
    · right; right; rfl

/-- Witness for C7: `"hello"` splits into a single section, so the
extractor returns the hardcoded fallback set. -/
theorem claim_C7_witness :
    ((vendorSections "hello".data).length < 2 ∧
      extractVendorScores "hello".data rndZero =
        createFallbackVendors "hello".data rndZero) ∧
    (acceptedSections (vendorSections "hello".data) = [] ∧
      extractVendorScores "hello".data rndZero =
        createFallbackVendors "hello".data rndZero) ∧
    ((createFallbackVendors "hello".data rndZero).map Vendor.name =
        ["Zscaler", "Palo Alto Networks", "CrowdStrike", "Microsoft",
         "Cisco", "Okta", "SentinelOne", "Fortinet"] ∨
      (createFallbackVendors "hello".data rndZero).map Vendor.name =
        ["Splunk", "Datadog", "New Relic", "Dynatrace",
         "AppDynamics", "Moogsoft", "BigPanda"] ∨
      (createFallbackVendors "hello".data rndZero).map Vendor.name =
        ["Vendor A", "Vendor B", "Vendor C", "Vendor D"]) :=
  ⟨⟨by decide, (claim_C7_fallback_vendors "hello".data rndZero).1 (by decide)⟩,
   ⟨by decide, (claim_C7_fallback_vendors "hello".data rndZero).2.1 (by decide)⟩,
   (claim_C7_fallback_vendors "hello".data rndZero).2.2⟩

/-- C10.  For every input string and every random stream, the vendor list
returned by `extractVendorScores` is non-empty, has at most 12 entries,
and every entry carries one of the four Magic-Quadrant labels with both
axis scores clamped into [30, 95]. -/
theorem claim_C10_extract_invariants (text : List Char) (rnd : ℕ → ℚ) :
    extractVendorScores text rnd ≠ [] ∧
    (extractVendorScores text rnd).length ≤ 12 ∧
    ∀ v ∈ extractVendorScores text rnd, GoodVendor v := by
  unfold extractVendorScores
  split_ifs with h1 h2
  · exact createFallbackVendors_props text rnd
  · exact createFallbackVendors_props text rnd
  · refine ⟨?_, ?_, ?_⟩
    · apply List.ne_nil_of_length_pos
      rw [List.length_take]
      omega
    · rw [List.length_take]
      exact min_le_left _ _
    · intro v hv
      exact acceptedVendors_good text rnd v (List.mem_of_mem_take hv)

/-- Witness for C10 at a concrete input and a concrete returned vendor
(the single vendor extracted from `cexC1`). -/
theorem claim_C10_witness :
    (extractVendorScores cexC1.data rndZero ≠ [] ∧
      (extractVendorScores cexC1.data rndZero).length ≤ 12) ∧
    GoodVendor (mkSectionVendor "Zscaler".data cexC1section.data (rndZero 0)) :=
  ⟨⟨(claim_C10_extract_invariants cexC1.data rndZero).1,
    (claim_C10_extract_invariants cexC1.data rndZero).2.1⟩,
   (claim_C10_extract_invariants cexC1.data rndZero).2.2 _
     (List.mem_singleton_self _)⟩

end EAA
